import Mathlib

/-!
Shallow embedding of `src/dsp.rs` of rust-fmod: the `Dsp` node handle wrapper
(ownership, release, graph edits) and the descriptor marshaller
(`DspParameterDesc` and its conversions to and from the fixed-capacity
native `FMOD_DSP_PARAMETERDESC`).

Modelling conventions:
- Native pointers (`ffi::FMOD_DSP`, connection pointers) are `Option Nat`,
  with `none` for the null pointer.
- Rust `String` / byte buffers are `List Nat` of byte values.
- `f32` fields are carried as opaque 32-bit patterns (`F32 := Nat`);
  the code only copies them, it never computes with them.
- The native FMOD library is external: each wrapper call takes the native
  outcome (status, out-parameters, bytes the native call writes into the
  buffers the wrapper hands it) as an explicit argument, and returns the
  list of native calls it performed as a trace.
-/

namespace RustFmod

/-- Bit pattern of an `f32`; the marshaller only copies these values. -/
abbrev F32 := Nat

/-- Modelled from the spec: status values are one success sentinel and
distinct failure kinds; the enumeration itself lives in the collaborator
module `enums` (not under `src/`). `Ok` is `fmod::Ok`. -/
inductive FmodResult where
  | Ok : FmodResult
  | Err : Nat → FmodResult
deriving DecidableEq, Repr

/-- One call into the native FMOD library, as recorded in a trace. -/
inductive NativeCall where
  | AddInput : Option Nat → Option Nat → NativeCall
  | DisconnectFrom : Option Nat → Option Nat → NativeCall
  | Release : Nat → NativeCall
deriving DecidableEq, Repr

/-- The `Dsp` wrapper: native handle (nullable) plus ownership flag. -/
structure Dsp where
  dsp : Option Nat
  can_be_deleted : Bool
deriving DecidableEq, Repr

/-- Borrowed constructor `from_ptr`: `Dsp{dsp: dsp, can_be_deleted: false}`. -/
def from_ptr (p : Option Nat) : Dsp :=
  { dsp := p, can_be_deleted := false }

/-- Owned constructor `from_ptr_first`: `Dsp{dsp: dsp, can_be_deleted: true}`. -/
def from_ptr_first (p : Option Nat) : Dsp :=
  { dsp := p, can_be_deleted := true }

/-- The `dsp_connection::DspConnection` wrapper around a connection pointer.
Modelled from the spec: the connection module is not under `src/`; a
Connection is a lightweight reference to a native edge with no release
obligation of its own. -/
structure DspConnection where
  connection : Option Nat
deriving DecidableEq, Repr

/-- `dsp_connection::from_ptr`. -/
def dspConnectionFromPtr (p : Option Nat) : DspConnection :=
  { connection := p }

/-- `Dsp::release`. `nativeRes` is the status the native
`FMOD_DSP_Release` would return if called. Returns the `fmod::Result`
of the method, the wrapper value after the call (the source mutates
`&mut self`), and the trace of native release calls performed. -/
def Dsp.release (nativeRes : FmodResult) (d : Dsp) :
    FmodResult × Dsp × List NativeCall :=
  match d.can_be_deleted, d.dsp with
  | true, some h =>
    match nativeRes with
    | FmodResult.Ok => (FmodResult.Ok, { d with dsp := none }, [NativeCall.Release h])
    | e => (e, d, [NativeCall.Release h])
  | _, _ => (FmodResult.Ok, d, [])

/-- `impl Drop for Dsp`: dropping calls `release` and discards its result. -/
def Dsp.dropDsp (nativeRes : FmodResult) (d : Dsp) : Dsp × List NativeCall :=
  ((Dsp.release nativeRes d).2.1, (Dsp.release nativeRes d).2.2)

/-- `Dsp::add_input(&self, target: Dsp)`. `addRes` and `connOut` are the
native `FMOD_DSP_AddInput` status and connection out-pointer;
`targetRelRes` is what the native release would return for `target`,
which is taken by value and therefore dropped when the call returns. -/
def Dsp.add_input (d : Dsp) (target : Dsp)
    (addRes : FmodResult) (connOut : Option Nat) (targetRelRes : FmodResult) :
    Except FmodResult DspConnection × List NativeCall :=
  let result :=
    match addRes with
    | FmodResult.Ok => Except.ok (dspConnectionFromPtr connOut)
    | e => Except.error e
  (result, NativeCall.AddInput d.dsp target.dsp :: (Dsp.dropDsp targetRelRes target).2)

/-- `Dsp::disconnect_from(&self, target: Dsp)`: forwards the native
`FMOD_DSP_DisconnectFrom` status; `target` is taken by value and dropped
when the call returns. -/
def Dsp.disconnect_from (d : Dsp) (target : Dsp)
    (discRes : FmodResult) (targetRelRes : FmodResult) :
    FmodResult × List NativeCall :=
  (discRes, NativeCall.DisconnectFrom d.dsp target.dsp :: (Dsp.dropDsp targetRelRes target).2)

/-- Old-Rust `with_c_str` on a byte sequence: the C string handed to the
native call is the content bytes followed by one null terminator, in a
fresh allocation of exactly `content length + 1` bytes. (The source
fails on interior null bytes; theorems that need it assume none.) -/
def cstrOf (s : List Nat) : List Nat :=
  s ++ [0]

/-- Old-Rust `::std::str::raw::from_c_str`: reads bytes up to the first
null terminator. -/
def fromCStr (buf : List Nat) : List Nat :=
  buf.takeWhile (fun b => b != 0)

/-- `String::with_capacity(n)`: the capacity only pre-sizes the
allocation; the string content is empty. -/
def stringWithCapacity (_n : Nat) : List Nat :=
  []

/-- The Rust-side `DspParameterDesc` with dynamically sized strings. -/
structure DspParameterDesc where
  min : F32
  max : F32
  default_val : F32
  name : List Nat
  label : List Nat
  description : List Nat
deriving DecidableEq, Repr

/-- The native `ffi::FMOD_DSP_PARAMETERDESC`: same numeric fields, and the
string fields are the C-string byte buffers its pointers refer to. -/
structure FMOD_DSP_PARAMETERDESC where
  min : F32
  max : F32
  default_val : F32
  name : List Nat
  label : List Nat
  description : List Nat
deriving DecidableEq, Repr

/-- `from_parameter_ptr`: numeric fields copied; each string read from its
C buffer up to the first null. -/
def from_parameter_ptr (p : FMOD_DSP_PARAMETERDESC) : DspParameterDesc :=
  { min := p.min
    max := p.max
    default_val := p.default_val
    name := fromCStr p.name
    label := fromCStr p.label
    description := fromCStr p.description }

/-- `get_parameter_ffi`: numeric fields copied; `name` and `label` are
byte-truncated with `Vec::truncate(16)` and then exported with
`with_c_str` (which appends the null terminator); `reserve_exact(16)`
only touches capacity. `description` is exported untruncated. -/
def get_parameter_ffi (d : DspParameterDesc) : FMOD_DSP_PARAMETERDESC :=
  { min := d.min
    max := d.max
    default_val := d.default_val
    name := cstrOf (d.name.take 16)
    label := cstrOf (d.label.take 16)
    description := cstrOf d.description }

/-- `new_parameter`. -/
def new_parameter : DspParameterDesc :=
  { min := 0, max := 0, default_val := 0, name := [], label := [], description := [] }

/-- Outcome of a native `FMOD_DSP_GetParameter` call: status, value
out-parameter, and the contents of the string buffer after the call. -/
structure GetParamNative where
  res : FmodResult
  valueOut : F32
  bufWritten : List Nat

/-- `Dsp::get_parameter(&self, index, value_str_len)`. The wrapper builds
its out-buffer from `String::with_capacity(value_str_len)` via
`with_c_str` and passes `value_str_len` as the buffer length; `native`
maps the provided buffer and the passed length to the native outcome.
On success it returns the value and the buffer contents up to the first
null. -/
def Dsp.get_parameter (_d : Dsp) (_index : Int) (value_str_len : Nat)
    (native : List Nat → Nat → GetParamNative) :
    Except FmodResult (F32 × List Nat) :=
  let out := native (cstrOf (stringWithCapacity value_str_len)) value_str_len
  match out.res with
  | FmodResult.Ok => Except.ok (out.valueOut, fromCStr out.bufWritten)
  | e => Except.error e

/-- Outcome of a native `FMOD_DSP_GetParameterInfo` call: status, the
contents of the three string buffers after the call, and the min/max
out-parameters. -/
structure ParamInfoNative where
  res : FmodResult
  nameWritten : List Nat
  labelWritten : List Nat
  descriptionWritten : List Nat
  minOut : F32
  maxOut : F32

/-- `Dsp::get_parameter_info(&self, index, name, label, description_len)`.
The name and label buffers are clones of the caller's strings (via
`with_c_str`); the description buffer comes from
`String::with_capacity(description_len)`; `description_len` is the only
numeric capacity passed to the native call. On success the result is the
description read back from its buffer plus min and max; whatever the
native call wrote into the name and label buffers is discarded. -/
def Dsp.get_parameter_info (_d : Dsp) (_index : Int)
    (name label : List Nat) (description_len : Nat)
    (native : List Nat → List Nat → List Nat → Nat → ParamInfoNative) :
    Except FmodResult (List Nat × F32 × F32) :=
  let out := native (cstrOf name) (cstrOf label)
      (cstrOf (stringWithCapacity description_len)) description_len
  match out.res with
  | FmodResult.Ok =>
    Except.ok (fromCStr out.descriptionWritten, out.minOut, out.maxOut)
  | e => Except.error e

/-- Outcome of a native `FMOD_DSP_GetInfo` call. -/
structure InfoNative where
  res : FmodResult
  nameWritten : List Nat
  version : Nat
  channels : Int
  config_width : Int
  config_height : Int

/-- `Dsp::get_info(&self, name)`. The name buffer is a clone of the
caller's string (no numeric capacity parameter exists); on success the
result is `(version, channels, config_width, config_height)`; whatever
the native call wrote into the name buffer is discarded. -/
def Dsp.get_info (_d : Dsp) (name : List Nat)
    (native : List Nat → InfoNative) :
    Except FmodResult (Nat × Int × Int × Int) :=
  let out := native (cstrOf name)
  match out.res with
  | FmodResult.Ok => Except.ok (out.version, out.channels, out.config_width, out.config_height)
  | e => Except.error e

/-- Number of native release calls in a trace that hit handle `h`. -/
def releasesOf : List NativeCall → Nat → Nat
  | [], _ => 0
  | NativeCall.Release x :: rest, h => (if x = h then 1 else 0) + releasesOf rest h
  | _ :: rest, h => releasesOf rest h

/-- Total number of native release calls in a trace. -/
def releaseCount : List NativeCall → Nat
  | [] => 0
  | NativeCall.Release _ :: rest => 1 + releaseCount rest
  | _ :: rest => releaseCount rest

/-- Result of running the spec example sequence. -/
structure ExampleRun where
  addResult : Except FmodResult DspConnection
  discResult : FmodResult
  trace : List NativeCall

/-- The example sequence with every native call succeeding: create owned
D1 and D2, `D1.add_input(D2)` (which consumes and drops D2),
`D1.disconnect_from` on the borrowed re-reference to D2 (the only way to
name D2 again after the move, as `get_input` would return it), then D1
goes out of scope and is dropped. -/
def exampleRun (h1 h2 : Nat) : ExampleRun :=
  let d1 := from_ptr_first (some h1)
  let d2 := from_ptr_first (some h2)
  let step1 := Dsp.add_input d1 d2 FmodResult.Ok (some (h1 + h2 + 1)) FmodResult.Ok
  let d2b := from_ptr (some h2)
  let step2 := Dsp.disconnect_from d1 d2b FmodResult.Ok FmodResult.Ok
  let dropD1 := Dsp.dropDsp FmodResult.Ok d1
  { addResult := step1.1
    discResult := step2.1
    trace := step1.2 ++ step2.2 ++ dropD1.2 }

/-! Helper lemmas shared by several claims. -/

/-- Reading back a `with_c_str` buffer recovers the content exactly when
the content has no interior null byte. -/
theorem fromCStr_cstrOf (l : List Nat) (hz : ∀ b ∈ l, b ≠ 0) :
    fromCStr (cstrOf l) = l := by
  induction l with
  | nil => rfl
  | cons a t ih =>
    have ha : (a != 0) = true := by
      simpa using hz a (List.mem_cons_self a t)
    have ht : ∀ b ∈ t, b ≠ 0 := fun b hb => hz b (List.mem_cons_of_mem a hb)
    simp only [fromCStr, cstrOf, List.cons_append, List.takeWhile_cons, ha, if_true]
    simpa [fromCStr, cstrOf] using ih ht

/-- Claim C1: for every owned `Dsp` with a valid handle, a release whose
native call succeeds returns success, invalidates the handle (sets it to
the null sentinel) and performs exactly one native release call; a second
release on the now-invalidated wrapper performs no native call at all and
still returns success, whatever the native layer would have answered. -/
theorem C1_release_idempotent (h : Nat) (e2 : FmodResult) :
    Dsp.release FmodResult.Ok (Dsp.mk (some h) true)
      = (FmodResult.Ok, Dsp.mk none true, [NativeCall.Release h])
    ∧ Dsp.release e2 (Dsp.mk none true)
      = (FmodResult.Ok, Dsp.mk none true, []) := by
  constructor
  · rfl
  · rfl

/-- Claim C3: a borrowed `Dsp` built by `from_ptr` (as `get_input` and
`get_output` return) never triggers a native release: `release()` returns
success, leaves the wrapper untouched and performs zero native calls, and
dropping the value performs zero native calls, whatever the native layer
would have answered. -/
theorem C3_borrowed_never_released (p : Option Nat) (res : FmodResult) :
    Dsp.release res (from_ptr p) = (FmodResult.Ok, from_ptr p, [])
    ∧ Dsp.dropDsp res (from_ptr p) = (from_ptr p, []) := by
  constructor
  · rfl
  · rfl

/-- Claim C4: when the native release fails with error `Err c`, `release()`
returns that error and leaves the wrapper unchanged (handle still the same
non-null value, ownership flag still set), and the call is retryable: a
subsequent release whose native call succeeds then invalidates the handle
and returns success. -/
theorem C4_release_error_atomic (h c : Nat) :
    Dsp.release (FmodResult.Err c) (Dsp.mk (some h) true)
      = (FmodResult.Err c, Dsp.mk (some h) true, [NativeCall.Release h])
    ∧ Dsp.release FmodResult.Ok (Dsp.mk (some h) true)
      = (FmodResult.Ok, Dsp.mk none true, [NativeCall.Release h]) := by
  constructor
  · rfl
  · rfl

/-- Claim C10: the descriptor marshaller copies `min`, `max` and
`default_val` through unchanged and unvalidated in both directions, for
every input descriptor. -/
theorem C10_numeric_passthrough (d : DspParameterDesc) (p : FMOD_DSP_PARAMETERDESC) :
    (get_parameter_ffi d).min = d.min
    ∧ (get_parameter_ffi d).max = d.max
    ∧ (get_parameter_ffi d).default_val = d.default_val
    ∧ (from_parameter_ptr p).min = p.min
    ∧ (from_parameter_ptr p).max = p.max
    ∧ (from_parameter_ptr p).default_val = p.default_val :=
  ⟨rfl, rfl, rfl, rfl, rfl, rfl⟩

/-- Claim C6: for a descriptor whose name and label are at most 16 bytes
long and free of interior null bytes, exporting with `get_parameter_ffi`
and importing back with `from_parameter_ptr` returns the identical name
and label strings. -/
theorem C6_roundtrip_within_capacity (d : DspParameterDesc)
    (hn : d.name.length ≤ 16) (hl : d.label.length ≤ 16)
    (hzn : ∀ b ∈ d.name, b ≠ 0) (hzl : ∀ b ∈ d.label, b ≠ 0) :
    (from_parameter_ptr (get_parameter_ffi d)).name = d.name
    ∧ (from_parameter_ptr (get_parameter_ffi d)).label = d.label := by
  constructor
  · show fromCStr (cstrOf (d.name.take 16)) = d.name
    rw [List.take_of_length_le hn]
    exact fromCStr_cstrOf d.name hzn
  · show fromCStr (cstrOf (d.label.take 16)) = d.label
    rw [List.take_of_length_le hl]
    exact fromCStr_cstrOf d.label hzl

/-- Witness for C6 at a concrete descriptor: name `"Cut"`, label `"hz"`. -/
theorem C6_roundtrip_within_capacity_witness :
    (from_parameter_ptr (get_parameter_ffi
        (DspParameterDesc.mk 1 2 3 [67, 117, 116] [104, 122] [68]))).name
      = [67, 117, 116]
    ∧ (from_parameter_ptr (get_parameter_ffi
        (DspParameterDesc.mk 1 2 3 [67, 117, 116] [104, 122] [68]))).label
      = [104, 122] :=
  C6_roundtrip_within_capacity (DspParameterDesc.mk 1 2 3 [67, 117, 116] [104, 122] [68])
    (by decide) (by decide) (by decide) (by decide)

/-- Counterexample to claim C5 as stated. For the 17-byte name
`[65, …, 81]` the claim predicts an exported buffer holding the first
15 content bytes plus the null terminator (16 bytes in total, the
terminator counted inside the 16-byte capacity). The code instead keeps
16 content bytes and appends the terminator as a 17th byte. -/
theorem C5_counterexample :
    ¬ ((get_parameter_ffi (DspParameterDesc.mk 0 0 0
          [65, 66, 67, 68, 69, 70, 71, 72, 73, 74, 75, 76, 77, 78, 79, 80, 81] [] [])).name
        = [65, 66, 67, 68, 69, 70, 71, 72, 73, 74, 75, 76, 77, 78, 79, 0]
      ∧ (get_parameter_ffi (DspParameterDesc.mk 0 0 0
          [65, 66, 67, 68, 69, 70, 71, 72, 73, 74, 75, 76, 77, 78, 79, 80, 81] [] [])).name.length
        ≤ 16) := by
  decide

/-- Claim C5 as amended: for a name and label strictly longer than
16 bytes (without interior nulls), export truncates each deterministically
to exactly its first 16 content bytes and appends the null terminator
after them, giving a 17-byte buffer — the 16-byte figure excludes the
terminator; the write stays within the freshly allocated destination of
content length + 1 bytes, and importing the exported buffer back yields
exactly the first 16 bytes. -/
theorem C5_truncation_to_16 (d : DspParameterDesc)
    (hn : 16 < d.name.length) (hl : 16 < d.label.length)
    (hzn : ∀ b ∈ d.name, b ≠ 0) (hzl : ∀ b ∈ d.label, b ≠ 0) :
    (get_parameter_ffi d).name = d.name.take 16 ++ [0]
    ∧ (get_parameter_ffi d).name.length = 17
    ∧ (from_parameter_ptr (get_parameter_ffi d)).name = d.name.take 16
    ∧ (get_parameter_ffi d).label = d.label.take 16 ++ [0]
    ∧ (get_parameter_ffi d).label.length = 17
    ∧ (from_parameter_ptr (get_parameter_ffi d)).label = d.label.take 16 := by
  refine ⟨rfl, ?_, ?_, rfl, ?_, ?_⟩
  · show (cstrOf (d.name.take 16)).length = 17
    simp [cstrOf, List.length_take]
    omega
  · show fromCStr (cstrOf (d.name.take 16)) = d.name.take 16
    exact fromCStr_cstrOf _ (fun b hb => hzn b (List.mem_of_mem_take hb))
  · show (cstrOf (d.label.take 16)).length = 17
    simp [cstrOf, List.length_take]
    omega
  · show fromCStr (cstrOf (d.label.take 16)) = d.label.take 16
    exact fromCStr_cstrOf _ (fun b hb => hzl b (List.mem_of_mem_take hb))

/-- Witness for the amended C5 at a concrete descriptor with a 17-byte
name and an 18-byte label. -/
theorem C5_truncation_to_16_witness :
    (get_parameter_ffi (DspParameterDesc.mk 0 0 0
        [65, 66, 67, 68, 69, 70, 71, 72, 73, 74, 75, 76, 77, 78, 79, 80, 81]
        [1, 2, 3, 4, 5, 6, 7, 8, 9, 10, 11, 12, 13, 14, 15, 16, 17, 18] [])).name
      = [65, 66, 67, 68, 69, 70, 71, 72, 73, 74, 75, 76, 77, 78, 79, 80] ++ [0]
    ∧ (get_parameter_ffi (DspParameterDesc.mk 0 0 0
        [65, 66, 67, 68, 69, 70, 71, 72, 73, 74, 75, 76, 77, 78, 79, 80, 81]
        [1, 2, 3, 4, 5, 6, 7, 8, 9, 10, 11, 12, 13, 14, 15, 16, 17, 18] [])).name.length = 17 := by
  have h := C5_truncation_to_16 (DspParameterDesc.mk 0 0 0
      [65, 66, 67, 68, 69, 70, 71, 72, 73, 74, 75, 76, 77, 78, 79, 80, 81]
      [1, 2, 3, 4, 5, 6, 7, 8, 9, 10, 11, 12, 13, 14, 15, 16, 17, 18] [])
      (by decide) (by decide) (by decide) (by decide)
  exact ⟨h.1, h.2.1⟩

/-- Claim C2: in the example sequence — owned D1 and D2 created,
`D1.add_input(D2)` succeeds (consuming and dropping D2 inside the call),
`D1.disconnect_from` succeeds on the borrowed re-reference to D2, then D1
is dropped — each owned handle is natively released exactly once, the
whole trace holds exactly two native release calls, and no handle is ever
released twice. -/
theorem C2_example_one_release_each (h1 h2 : Nat) (hne : h1 ≠ h2) :
    (exampleRun h1 h2).addResult = Except.ok (dspConnectionFromPtr (some (h1 + h2 + 1)))
    ∧ (exampleRun h1 h2).discResult = FmodResult.Ok
    ∧ releasesOf (exampleRun h1 h2).trace h1 = 1
    ∧ releasesOf (exampleRun h1 h2).trace h2 = 1
    ∧ releaseCount (exampleRun h1 h2).trace = 2 := by
  have htr : (exampleRun h1 h2).trace
      = [NativeCall.AddInput (some h1) (some h2), NativeCall.Release h2,
         NativeCall.DisconnectFrom (some h1) (some h2), NativeCall.Release h1] := rfl
  refine ⟨rfl, rfl, ?_, ?_, ?_⟩
  · rw [htr]
    simp [releasesOf, Ne.symm hne]
  · rw [htr]
    simp [releasesOf, hne]
  · rw [htr]
    simp [releaseCount]

/-- Witness for C2 at the concrete distinct handles 1 and 2. -/
theorem C2_example_one_release_each_witness :
    (exampleRun 1 2).addResult = Except.ok (dspConnectionFromPtr (some 4))
    ∧ (exampleRun 1 2).discResult = FmodResult.Ok
    ∧ releasesOf (exampleRun 1 2).trace 1 = 1
    ∧ releasesOf (exampleRun 1 2).trace 2 = 1
    ∧ releaseCount (exampleRun 1 2).trace = 2 :=
  C2_example_one_release_each 1 2 (by decide)

/-- Counterexample to claim C7 as stated. Two native behaviors that write
different name and label strings into their buffers produce the same
result of `get_parameter_info`, and the successful result is only the
triple of description, min and max: the method does not return the
parameter's name or label, and its only numeric capacity argument is the
description length. -/
theorem C7_counterexample :
    Dsp.get_parameter_info (from_ptr_first (some 1)) 0 [65] [66] 8
        (fun _ _ _ _ => ParamInfoNative.mk FmodResult.Ok [90, 0] [91, 0] [72, 73, 0] 5 9)
      = Dsp.get_parameter_info (from_ptr_first (some 1)) 0 [65] [66] 8
        (fun _ _ _ _ => ParamInfoNative.mk FmodResult.Ok [1, 0] [2, 0] [72, 73, 0] 5 9)
    ∧ Dsp.get_parameter_info (from_ptr_first (some 1)) 0 [65] [66] 8
        (fun _ _ _ _ => ParamInfoNative.mk FmodResult.Ok [90, 0] [91, 0] [72, 73, 0] 5 9)
      = Except.ok ([72, 73], 5, 9) :=
  ⟨rfl, rfl⟩

/-- Claim C7 as amended: `get_parameter_info` takes a single numeric
capacity, `description_len`, used only for the description buffer; the
name and label arguments are caller strings cloned into the native
buffers, and whatever the native call writes there is discarded — the
result depends only on the native status, description bytes and min/max;
on success the method returns exactly (description read back from its
buffer, min, max). -/
theorem C7_get_parameter_info_amended (d : Dsp) (index : Int)
    (name label : List Nat) (dlen : Nat)
    (n1 n2 : List Nat → List Nat → List Nat → Nat → ParamInfoNative)
    (hagree : ∀ a b c k, (n1 a b c k).res = (n2 a b c k).res
      ∧ (n1 a b c k).descriptionWritten = (n2 a b c k).descriptionWritten
      ∧ (n1 a b c k).minOut = (n2 a b c k).minOut
      ∧ (n1 a b c k).maxOut = (n2 a b c k).maxOut) :
    Dsp.get_parameter_info d index name label dlen n1
      = Dsp.get_parameter_info d index name label dlen n2
    ∧ ((n1 (cstrOf name) (cstrOf label) (cstrOf (stringWithCapacity dlen)) dlen).res
          = FmodResult.Ok →
       Dsp.get_parameter_info d index name label dlen n1
         = Except.ok
            (fromCStr (n1 (cstrOf name) (cstrOf label)
                (cstrOf (stringWithCapacity dlen)) dlen).descriptionWritten,
             (n1 (cstrOf name) (cstrOf label) (cstrOf (stringWithCapacity dlen)) dlen).minOut,
             (n1 (cstrOf name) (cstrOf label) (cstrOf (stringWithCapacity dlen)) dlen).maxOut)) := by
  obtain ⟨hr, hd, hm, hM⟩ :=
    hagree (cstrOf name) (cstrOf label) (cstrOf (stringWithCapacity dlen)) dlen
  constructor
  · simp only [Dsp.get_parameter_info]
    rw [← hr, ← hd, ← hm, ← hM]
  · intro hOk
    simp only [Dsp.get_parameter_info]
    rw [hOk]

/-- Witness for the amended C7 at two concrete native behaviors agreeing
on status, description and range. -/
theorem C7_get_parameter_info_amended_witness :
    Dsp.get_parameter_info (from_ptr_first (some 2)) 1 [70] [71] 4
        (fun _ _ _ _ => ParamInfoNative.mk FmodResult.Ok [10, 0] [11, 0] [80, 0] 6 7)
      = Dsp.get_parameter_info (from_ptr_first (some 2)) 1 [70] [71] 4
        (fun _ _ _ _ => ParamInfoNative.mk FmodResult.Ok [12, 0] [13, 0] [80, 0] 6 7) :=
  (C7_get_parameter_info_amended (from_ptr_first (some 2)) 1 [70] [71] 4
    (fun _ _ _ _ => ParamInfoNative.mk FmodResult.Ok [10, 0] [11, 0] [80, 0] 6 7)
    (fun _ _ _ _ => ParamInfoNative.mk FmodResult.Ok [12, 0] [13, 0] [80, 0] 6 7)
    (fun _ _ _ _ => ⟨rfl, rfl, rfl, rfl⟩)).1

/-- Counterexample to claim C8 as stated. Two native behaviors that write
different names into the name buffer produce the same `get_info` result,
and the successful result is only (version, channels, config width,
config height): no name is returned, and the method has no numeric name
capacity argument at all — the buffer it passes is the caller's string
plus terminator. -/
theorem C8_counterexample :
    Dsp.get_info (from_ptr_first (some 1)) [78]
        (fun _ => InfoNative.mk FmodResult.Ok [90, 0] 7 2 300 200)
      = Dsp.get_info (from_ptr_first (some 1)) [78]
        (fun _ => InfoNative.mk FmodResult.Ok [5, 0] 7 2 300 200)
    ∧ Dsp.get_info (from_ptr_first (some 1)) [78]
        (fun _ => InfoNative.mk FmodResult.Ok [90, 0] 7 2 300 200)
      = Except.ok (7, 2, 300, 200) :=
  ⟨rfl, rfl⟩

/-- Claim C8 as amended: `get_info` takes a caller-provided name string
whose clone (content plus terminator) is the native name buffer — there
is no separate name capacity parameter; on success it returns exactly
(version, channels, config width, config height), and whatever the native
call wrote into the name buffer is discarded: the result depends only on
the native status and numeric outputs. -/
theorem C8_get_info_amended (d : Dsp) (name : List Nat)
    (n1 n2 : List Nat → InfoNative)
    (hagree : ∀ a, (n1 a).res = (n2 a).res
      ∧ (n1 a).version = (n2 a).version
      ∧ (n1 a).channels = (n2 a).channels
      ∧ (n1 a).config_width = (n2 a).config_width
      ∧ (n1 a).config_height = (n2 a).config_height) :
    Dsp.get_info d name n1 = Dsp.get_info d name n2
    ∧ ((n1 (cstrOf name)).res = FmodResult.Ok →
       Dsp.get_info d name n1
         = Except.ok ((n1 (cstrOf name)).version, (n1 (cstrOf name)).channels,
             (n1 (cstrOf name)).config_width, (n1 (cstrOf name)).config_height)) := by
  obtain ⟨hr, hv, hc, hw, hh⟩ := hagree (cstrOf name)
  constructor
  · simp only [Dsp.get_info]
    rw [← hr, ← hv, ← hc, ← hw, ← hh]
  · intro hOk
    simp only [Dsp.get_info]
    rw [hOk]

/-- Witness for the amended C8 at two concrete native behaviors agreeing
on everything but the written name. -/
theorem C8_get_info_amended_witness :
    Dsp.get_info (from_ptr_first (some 3)) [77]
        (fun _ => InfoNative.mk FmodResult.Ok [40, 0] 1 2 3 4)
      = Dsp.get_info (from_ptr_first (some 3)) [77]
        (fun _ => InfoNative.mk FmodResult.Ok [41, 0] 1 2 3 4) :=
  (C8_get_info_amended (from_ptr_first (some 3)) [77]
    (fun _ => InfoNative.mk FmodResult.Ok [40, 0] 1 2 3 4)
    (fun _ => InfoNative.mk FmodResult.Ok [41, 0] 1 2 3 4)
    (fun _ => ⟨rfl, rfl, rfl, rfl, rfl⟩)).1

/-- Claim C9 concerns a code bug: for `value_str_len = 16` the wrapper
builds its string buffer from `String::with_capacity(16)` — an empty
string — so `with_c_str` hands the native call a buffer of exactly one
byte (the terminator) while still passing 16 as the buffer length; the
buffer is not at least 16 bytes as the claim requires. The probe native
behavior that echoes back exactly the buffer it was given shows the
wrapper provided `[0]`: the call succeeds with the empty string. -/
theorem C9_get_parameter_buffer_bug :
    (cstrOf (stringWithCapacity 16)).length = 1
    ∧ ¬ (16 ≤ (cstrOf (stringWithCapacity 16)).length)
    ∧ Dsp.get_parameter (from_ptr_first (some 1)) 0 16
        (fun buf _ => GetParamNative.mk FmodResult.Ok 3 buf)
      = Except.ok (3, []) :=
  ⟨rfl, by decide, rfl⟩

end RustFmod
